import Mathlib

/-!
Verification development for the Kakarot RPC translation core.

This file shallowly embeds the Rust sources:
  * `src/eth_provider/starknet/kakarot_core.rs` (transaction translator,
    lazily-initialized configuration constants),
  * `src/eth_provider/contracts/erc20.rs` (ERC20 balance read),
  * `src/test_utils/hive/mod.rs` (genesis state materializer),
and proves / refutes the frozen specification claims about them.

Conventions of the embedding:
  * Starknet field elements are `Nat` values; the Stark prime is explicit and
    reductions `% STARK_PRIME` are written exactly where the Rust code performs
    field arithmetic (`FieldElement` addition).  All conversions from machine
    integers (`u64`, `u128`, single bytes) into field elements are numeric
    identities because those values are below the prime.
  * Rust machine integers are `Nat` with explicit `% 2 ^ w` where the Rust
    arithmetic can wrap (release-profile semantics).
  * Fallible Rust code (`Result`, `?`) is `Except`.
  * External collaborator capabilities (Starknet hashing, the Katana genesis
    builder, the account-model classifier) are fields of explicit environment
    records, mirroring the spec treating them as consumed capabilities.
-/

namespace KakarotRpc

/-- The Stark field prime `2^251 + 17 * 2^192 + 1` (starknet `FieldElement` modulus). -/
def STARK_PRIME : Nat := 2 ^ 251 + 17 * 2 ^ 192 + 1

/-- Modelled from the spec: `split_u256` lives in `src/eth_provider/utils.rs`,
which is not part of the provided sources.  Spec §4.1: split a 256-bit value
into `(lo, hi)` 128-bit limbs, returned as the two-element sequence
`[lo, hi]`. -/
def split_u256 (v : Nat) : List Nat := [v % 2 ^ 128, (v / 2 ^ 128) % 2 ^ 128]

/-- Modelled from the spec: the `combine` direction of the Field-Limb Codec
(spec §4.1): `combine (lo, hi) = lo + hi * 2^128`. -/
def combine_u256 (lo hi : Nat) : Nat := lo + hi * 2 ^ 128

/-- Big-endian value of a byte sequence. -/
def beVal (bytes : List Nat) : Nat := bytes.foldl (fun acc b => acc * 256 + b) 0

/-- Fuel-driven minimal big-endian byte expansion (fuel bounds recursion depth;
it is always called with enough fuel). -/
def beBytesF : Nat → Nat → List Nat
  | 0, _ => []
  | fuel + 1, n => if n = 0 then [] else beBytesF fuel (n / 256) ++ [n % 256]

/-- Minimal big-endian bytes of `n` (empty for 0), as used by RLP integer encoding. -/
def beBytes (n : Nat) : List Nat := beBytesF n n

/-- `n` as exactly `w` big-endian bytes (zero-padded on the left), as used for
fixed-width fields (20-byte addresses, 32-byte storage keys / ABI words). -/
def bePad (w : Nat) (n : Nat) : List Nat :=
  List.replicate (w - (beBytes n).length) 0 ++ beBytes n

/-- RLP encoding of a byte string (the `alloy_rlp` string rules). -/
def rlpStr (s : List Nat) : List Nat :=
  match s with
  | [b] => if b < 128 then [b] else [129, b]
  | _ =>
    if s.length < 56 then (128 + s.length) :: s
    else (183 + (beBytes s.length).length) :: (beBytes s.length ++ s)

/-- RLP encoding of an unsigned integer: its minimal big-endian bytes as a string. -/
def rlpNat (n : Nat) : List Nat := rlpStr (beBytes n)

/-- RLP list header prepended to an already-encoded payload. -/
def rlpListPayload (payload : List Nat) : List Nat :=
  if payload.length < 56 then (192 + payload.length) :: payload
  else (247 + (beBytes payload.length).length) :: (beBytes payload.length ++ payload)

/-- `reth_primitives::TransactionKind`: a create or a call to a 20-byte address
(the address is kept as its byte sequence). -/
inductive TransactionKind where
  | create : TransactionKind
  | call («to» : List Nat) : TransactionKind

/-- One EIP-2930 access-list item: 20-byte address plus 32-byte storage keys. -/
structure AccessListItem where
  address : List Nat
  storage_keys : List Nat

/-- `reth_primitives::TxLegacy` (the fields entering the signing encoding). -/
structure TxLegacy where
  chain_id : Option Nat
  nonce : Nat
  gas_price : Nat
  gas_limit : Nat
  «to» : TransactionKind
  value : Nat
  input : List Nat

/-- `reth_primitives::TxEip2930`. -/
structure TxEip2930 where
  chain_id : Nat
  nonce : Nat
  gas_price : Nat
  gas_limit : Nat
  «to» : TransactionKind
  value : Nat
  access_list : List AccessListItem
  input : List Nat

/-- `reth_primitives::TxEip1559`. -/
structure TxEip1559 where
  chain_id : Nat
  nonce : Nat
  gas_limit : Nat
  max_fee_per_gas : Nat
  max_priority_fee_per_gas : Nat
  «to» : TransactionKind
  value : Nat
  access_list : List AccessListItem
  input : List Nat

/-- `reth_primitives::Transaction`: the supported variants per the spec data model. -/
inductive Transaction where
  | legacy (tx : TxLegacy) : Transaction
  | eip2930 (tx : TxEip2930) : Transaction
  | eip1559 (tx : TxEip1559) : Transaction

/-- `Transaction::nonce()`. -/
def Transaction.nonce : Transaction → Nat
  | .legacy tx => tx.nonce
  | .eip2930 tx => tx.nonce
  | .eip1559 tx => tx.nonce

/-- RLP encoding of a `TransactionKind`: empty string for create, the 20-byte
address string for a call. -/
def rlpKind : TransactionKind → List Nat
  | .create => rlpStr []
  | .call a => rlpStr a

/-- RLP encoding of one access-list item: `rlp([address, [key, ...]])`. -/
def rlpAccessListItem (item : AccessListItem) : List Nat :=
  rlpListPayload
    (rlpStr item.address ++
      rlpListPayload ((item.storage_keys.map (fun k => rlpStr (bePad 32 k))).flatten))

/-- RLP encoding of an access list. -/
def rlpAccessList (al : List AccessListItem) : List Nat :=
  rlpListPayload ((al.map rlpAccessListItem).flatten)

/-- `Transaction::encode_without_signature` (reth / alloy-rlp): the canonical
unsigned signing encoding of each variant.  Legacy: EIP-155
`rlp([nonce, gas_price, gas_limit, to, value, input, chain_id, 0, 0])` when the
transaction carries a chain id (plain six-field rlp otherwise); typed variants:
one type byte followed by the rlp of their EIP-2930 / EIP-1559 field list. -/
def encode_without_signature : Transaction → List Nat
  | .legacy t =>
    rlpListPayload
      (rlpNat t.nonce ++ rlpNat t.gas_price ++ rlpNat t.gas_limit ++ rlpKind t.«to» ++
        rlpNat t.value ++ rlpStr t.input ++
        (match t.chain_id with
         | some cid => rlpNat cid ++ rlpNat 0 ++ rlpNat 0
         | none => []))
  | .eip2930 t =>
    1 :: rlpListPayload
      (rlpNat t.chain_id ++ rlpNat t.nonce ++ rlpNat t.gas_price ++ rlpNat t.gas_limit ++
        rlpKind t.«to» ++ rlpNat t.value ++ rlpStr t.input ++ rlpAccessList t.access_list)
  | .eip1559 t =>
    2 :: rlpListPayload
      (rlpNat t.chain_id ++ rlpNat t.nonce ++ rlpNat t.max_priority_fee_per_gas ++
        rlpNat t.max_fee_per_gas ++ rlpNat t.gas_limit ++ rlpKind t.«to» ++ rlpNat t.value ++
        rlpStr t.input ++ rlpAccessList t.access_list)

/-- `reth_primitives::Signature`: 256-bit `r` and `s` plus the parity bit. -/
structure Signature where
  r : Nat
  s : Nat
  odd_y_parity : Bool

/-- `Signature::v(chain_id)` from `reth_primitives`: with a chain id it is
`odd_y_parity as u64 + chain_id * 2 + 35`, computed in `u64` arithmetic, which
wraps modulo `2^64` under release-profile semantics (no checked arithmetic and
no error channel). -/
def Signature.v (sig : Signature) (chain_id : Option Nat) : Nat :=
  match chain_id with
  | some cid => ((if sig.odd_y_parity then 1 else 0) + cid * 2 + 35) % 2 ^ 64
  | none => (if sig.odd_y_parity then 1 else 0) + 27

/-- `reth_primitives::TransactionSigned` (hash field irrelevant here). -/
structure TransactionSigned where
  transaction : Transaction
  signature : Signature

/-- The process-wide configuration constants of `kakarot_core.rs` after
successful initialization, together with the external
`starknet::core::utils::get_contract_address` hashing capability
(argument order: salt, class hash, constructor calldata, deployer). -/
structure KakarotConfig where
  KAKAROT_ADDRESS : Nat
  PROXY_ACCOUNT_CLASS_HASH : Nat
  ETH_SEND_TRANSACTION : Nat
  get_contract_address : Nat → Nat → List Nat → Nat → Nat

/-- `starknet_address`: compute the starknet address for an eth address
(`get_contract_address(address, PROXY_ACCOUNT_CLASS_HASH, &[], KAKAROT_ADDRESS)`;
the 20-byte address is embedded big-endian into a field element). -/
def starknet_address (cfg : KakarotConfig) (address : List Nat) : Nat :=
  cfg.get_contract_address (beVal address) cfg.PROXY_ACCOUNT_CLASS_HASH [] cfg.KAKAROT_ADDRESS

/-- The `EthProviderResult` error channel (`EthApiError`), restricted to the
constructors the embedded functions can produce. -/
inductive EthApiError where
  | uintConversionError (msg : String) : EthApiError
  | callError (msg : String) : EthApiError
deriving DecidableEq

/-- `starknet::core::types::BroadcastedInvokeTransactionV1`. -/
structure BroadcastedInvokeTransactionV1 where
  max_fee : Nat
  signature : List Nat
  nonce : Nat
  sender_address : Nat
  calldata : List Nat
  is_query : Bool

/-- `to_starknet_transaction` from `kakarot_core.rs`: signature repacking
(`[r_lo, r_hi, s_lo, s_hi, v-or-parity]`) and framed byte-array calldata
(`[1, KAKAROT_ADDRESS, ETH_SEND_TRANSACTION, 0, len, len, byte...]`); each
byte of the unsigned encoding is zero-extended into its own field element
(numerically the identity).  The Rust body contains no fallible step, so the
embedding is a single `Except.ok`. -/
def to_starknet_transaction (cfg : KakarotConfig) (transaction : TransactionSigned)
    (chain_id : Nat) (signer : List Nat) (max_fee : Nat) :
    Except EthApiError BroadcastedInvokeTransactionV1 :=
  let sender_address := starknet_address cfg signer
  let nonce := transaction.transaction.nonce
  let signature :=
    split_u256 transaction.signature.r ++ split_u256 transaction.signature.s ++
      [match transaction.transaction with
       | .legacy _ => transaction.signature.v (some chain_id)
       | _ => (if transaction.signature.odd_y_parity then 1 else 0)]
  let signed_data := encode_without_signature transaction.transaction
  let execute_calldata :=
    1 :: cfg.KAKAROT_ADDRESS :: cfg.ETH_SEND_TRANSACTION :: 0 ::
      signed_data.length :: signed_data.length :: signed_data
  Except.ok
    { max_fee := max_fee
      signature := signature
      nonce := nonce
      sender_address := sender_address
      calldata := execute_calldata
      is_query := false }

/-- `reth_rpc_types::TransactionRequest`, restricted to the fields `balance_of`
sets (the `input` holds the ABI-encoded call). -/
structure TransactionRequest where
  «from» : Option (List Nat)
  «to» : Option (List Nat)
  gas_price : Option Nat
  gas : Option Nat
  value : Option Nat
  input : Option (List Nat)

/-- `ruint`'s `U256::try_from_be_slice`: succeeds for every slice whose
big-endian value fits in 256 bits (shorter slices are zero-extended), and is
`none` exactly when the value needs more than 256 bits. -/
def try_from_be_slice (bytes : List Nat) : Option Nat :=
  if beVal bytes < 2 ^ 256 then some (beVal bytes) else none

/-- `EthereumErc20::balance_of` from `erc20.rs`, parameterized by the external
read-only call capability (`provider.call`).  The calldata is the ethers ABI
encoding of `balanceOf(address)`: the 4-byte selector `0x70a08231` followed by
the 32-byte left-padded address.  The returned bytes are decoded with
`U256::try_from_be_slice`; a `none` becomes
`ConversionError::UintConversionError`. -/
def balance_of (call : TransactionRequest → Option Nat → Except EthApiError (List Nat))
    (erc20_address : List Nat) (evm_address : List Nat) (block_id : Nat) :
    Except EthApiError Nat :=
  let calldata := [0x70, 0xa0, 0x82, 0x31] ++ bePad 32 (beVal evm_address)
  let request : TransactionRequest :=
    { «from» := some (List.replicate 20 0)
      «to» := some erc20_address
      gas_price := some 0
      gas := some 1000000
      value := some 0
      input := some calldata }
  match call request (some block_id) with
  | .error e => .error e
  | .ok ret =>
    match try_from_be_slice ret with
    | none => .error (.uintConversionError "Failed to convert call return to U256")
    | some balance => .ok balance

/-- The panic channel of `env_var_to_field_element` (the Rust code calls
`panic!`, which aborts the surrounding computation; the `Except` layer records
which panic fired). -/
inductive ConfigPanic where
  | missingEnvVar (name : String) : ConfigPanic
  | invalidHexString (name : String) : ConfigPanic
deriving DecidableEq

/-- Value of one hex digit, if the character is one. -/
def hexDigit? (c : Char) : Option Nat :=
  if '0' ≤ c ∧ c ≤ '9' then some (c.toNat - 48)
  else if 'a' ≤ c ∧ c ≤ 'f' then some (c.toNat - 87)
  else if 'A' ≤ c ∧ c ≤ 'F' then some (c.toNat - 55)
  else none

/-- Accumulating hex parse; `none` on the first non-hex character. -/
def parseHexAcc : List Char → Nat → Option Nat
  | [], acc => some acc
  | c :: rest, acc =>
    match hexDigit? c with
    | none => none
    | some d => parseHexAcc rest (acc * 16 + d)

/-- Accumulating decimal parse; `none` on the first non-digit. -/
def parseDecAcc : List Char → Nat → Option Nat
  | [], acc => some acc
  | c :: rest, acc =>
    if '0' ≤ c ∧ c ≤ '9' then parseDecAcc rest (acc * 10 + (c.toNat - 48))
    else none

/-- `FieldElement::from_str` (starknet-rs): a `0x`-prefixed string is parsed as
hex, anything else as decimal; the value must be a canonical field element
(below the Stark prime). -/
def field_element_from_str (s : String) : Option Nat :=
  match s.toList with
  | '0' :: 'x' :: rest =>
    (parseHexAcc rest 0).bind (fun v => if v < STARK_PRIME then some v else none)
  | cs =>
    (parseDecAcc cs 0).bind (fun v => if v < STARK_PRIME then some v else none)

/-- `env_var_to_field_element` from `kakarot_core.rs`: read the environment
variable and parse it as a field element; a missing variable or a failed parse
is a `panic!` (modelled as the `ConfigPanic` error channel).  The environment
is the map from variable names to values (`dotenv` merging already applied). -/
def env_var_to_field_element (env : String → Option String) (var_name : String) :
    Except ConfigPanic Nat :=
  match env var_name with
  | none => .error (.missingEnvVar var_name)
  | some s =>
    match field_element_from_str s with
    | none => .error (.invalidHexString var_name)
    | some v => .ok v

/-- What the `lazy_static!` block of `kakarot_core.rs` runs at process
initialization: it only registers thunks — `env_var_to_field_element` is NOT
called until a static is first dereferenced — so initialization itself never
inspects the configuration and never fails. -/
def lazy_static_init (_env : String → Option String) : Except ConfigPanic Unit :=
  .ok ()

/-- `starknet_address` as executed against the lazy statics: the first request
that needs it forces `*PROXY_ACCOUNT_CLASS_HASH` and then `*KAKAROT_ADDRESS`
(Rust argument evaluation order), so this is the point where a missing or
unparsable configuration value first panics. -/
def starknet_address_lazy (env : String → Option String)
    (get_contract_address : Nat → Nat → List Nat → Nat → Nat) (address : List Nat) :
    Except ConfigPanic Nat :=
  match env_var_to_field_element env "PROXY_ACCOUNT_CLASS_HASH" with
  | .error e => .error e
  | .ok proxy_class_hash =>
    match env_var_to_field_element env "KAKAROT_ADDRESS" with
    | .error e => .error e
    | .ok kakarot_address =>
      .ok (get_contract_address (beVal address) proxy_class_hash [] kakarot_address)

/-- The `eyre::Error` channel of the genesis materializer, plus the
`unreachable!` defect branch, which aborts the computation loudly. -/
inductive GenesisError where
  | err (msg : String) : GenesisError
  | invariantViolation (msg : String) : GenesisError
deriving DecidableEq

/-- `ef_testing::evm_sequencer::account::AccountType`: the closed classification
plus the structurally-unreachable third variant. -/
inductive AccountType where
  | eoa : AccountType
  | contract : AccountType
  | unknown : AccountType
deriving DecidableEq

/-- The part of `ef_testing`'s `KakarotAccount` consumed by the materializer:
the classification and the derived low-level storage (already field elements). -/
structure KakarotAccount where
  account_type : AccountType
  storage : List (Nat × Nat)

/-- `AccountInfo` from `hive/mod.rs`: one genesis allocation entry. -/
structure AccountInfo where
  balance : Nat
  code : Option (List Nat)
  storage : Option (List (Nat × Nat))

/-- `HiveGenesisConfig`, restricted to the fields `try_into_genesis_json`
reads: the coinbase address and the allocation (addresses are 20-byte
sequences; the map is carried as an association list). -/
structure HiveGenesisConfig where
  coinbase : List Nat
  alloc : List (List Nat × AccountInfo)

/-- `katana_primitives::genesis::json::GenesisContractJson` (the source field
`class` keeps its name).  Storage maps are association lists in which a later
binding shadows an earlier one, mirroring `HashMap` insertion. -/
structure GenesisContractJson where
  «class» : Option Nat
  balance : Option Nat
  nonce : Option Nat
  storage : Option (List (Nat × Nat))

/-- The fee-token part of the katana genesis consumed here. -/
structure FeeTokenJson where
  storage : Option (List (Nat × Nat))

/-- `katana_primitives::genesis::json::GenesisJson`, restricted to the fields
`try_into_genesis_json` touches. -/
structure GenesisJson where
  contracts : List (Nat × GenesisContractJson)
  fee_token : FeeTokenJson

/-- The collaborator capabilities consumed by `try_into_genesis_json`.
`with_kakarot`, `cache_load`, the class-hash getters, `compute_starknet_address`
and `build` model the `KatanaGenesisBuilder` (code of this repository outside
the provided sources — Modelled from the spec: loaded contract classes,
deterministic address derivation, base genesis state).
`get_storage_var_address` (starknet-rs hashing) and `kakarot_account_new`
(`ef_testing`'s account-model classifier) are the external capabilities of
spec §6; each is fallible exactly as its Rust counterpart. -/
structure GenesisEnv where
  with_kakarot : Nat → Except GenesisError Unit
  cache_load : String → Except GenesisError Nat
  proxy_class_hash : Except GenesisError Nat
  eoa_class_hash : Except GenesisError Nat
  contract_account_class_hash : Except GenesisError Nat
  compute_starknet_address : Nat → Except GenesisError Nat
  get_storage_var_address : String → List Nat → Except GenesisError Nat
  kakarot_account_new : List Nat → List Nat → Nat → List (Nat × Nat) →
    Except GenesisError KakarotAccount
  build : Except GenesisError GenesisJson

/-- `FieldElement::from_byte_slice_be`: fails on a slice longer than 32 bytes
or a value at or above the Stark prime; 20-byte addresses always succeed. -/
def from_byte_slice_be (bytes : List Nat) : Except GenesisError Nat :=
  if 32 < bytes.length ∨ STARK_PRIME ≤ beVal bytes then
    .error (.err "FromByteSliceError")
  else .ok (beVal bytes)

/-- The contribution of one allocation entry to the three outputs the Rust
closure writes: one `evm_to_starknet_address` insertion into the kakarot
contract storage, two fee-token allowance insertions, and one genesis
contract. -/
structure EntryOut where
  kakarot_storage_entry : Nat × Nat
  fee_token_entries : List (Nat × Nat)
  contract : Nat × GenesisContractJson

/-- `Iterator::map(...).collect::<Result<_, _>>()`: evaluate the closure left
to right and abort on the first error. -/
def collectResults (f : α → Except ε β) : List α → Except ε (List β)
  | [] => .ok []
  | x :: xs =>
    match f x with
    | .error e => .error e
    | .ok b =>
      match collectResults f xs with
      | .error e => .error e
      | .ok bs => .ok (b :: bs)

/-- `HashMap` lookup over the association-list model: the LAST binding of a key
wins, matching `HashMap` insertion/`extend` overwrite semantics. -/
def assocGet (m : List (Nat × α)) (k : Nat) : Option α :=
  List.lookup k m.reverse

/-- In-place update of every binding of `k` (the model of
`HashMap::get_mut(&k)` followed by mutation through the reference). -/
def updateAssoc (m : List (Nat × α)) (k : Nat) (f : α → α) : List (Nat × α) :=
  m.map (fun p => if p.1 = k then (p.1, f p.2) else p)

/-- The body of the per-entry closure of `try_into_genesis_json`
(`hive/mod.rs` lines 69–114), with every fallible step in source order:
parse the EVM address, derive the starknet address, record the
`evm_to_starknet_address` mapping, classify through `KakarotAccount::new`
(balance argument `U256::ZERO`), merge the fixed slots (`_implementation`
and — only for Contract accounts — `Ownable_owner`), append the
`kakarot_address` slot, and grant the two-limb `u128::MAX` fee-token
allowance at `ERC20_allowances(starknet_address, kakarot_address)` and the
field-element successor of that key.  The produced contract carries
`class = proxy_class_hash`, the whole `info.balance`, no nonce, and the merged
storage. -/
def process_alloc_entry (env : GenesisEnv)
    (kakarot_address proxy_class_hash eoa_class_hash contract_account_class_hash : Nat)
    (entry : List Nat × AccountInfo) : Except GenesisError EntryOut :=
  match from_byte_slice_be entry.1 with
  | .error e => .error e
  | .ok evm_address =>
   match env.compute_starknet_address evm_address with
   | .error e => .error e
   | .ok starknet_addr =>
    match env.get_storage_var_address "evm_to_starknet_address" [evm_address] with
    | .error e => .error e
    | .ok evm_to_starknet_key =>
     match env.kakarot_account_new entry.1 (entry.2.code.getD []) 0 (entry.2.storage.getD []) with
     | .error e => .error e
     | .ok kakarot_account =>
      match env.get_storage_var_address "_implementation" [] with
      | .error e => .error e
      | .ok implementation_key =>
       match
         ((match kakarot_account.account_type with
           | .contract =>
             match env.get_storage_var_address "Ownable_owner" [] with
             | .error e => .error e
             | .ok owner_key =>
               .ok (kakarot_account.storage ++
                 [(implementation_key, contract_account_class_hash), (owner_key, kakarot_address)])
           | .eoa =>
             .ok (kakarot_account.storage ++ [(implementation_key, eoa_class_hash)])
           | .unknown => .error (.invariantViolation "Invalid account type")) :
           Except GenesisError (List (Nat × Nat))) with
       | .error e => .error e
       | .ok account_storage0 =>
        match env.get_storage_var_address "kakarot_address" [] with
        | .error e => .error e
        | .ok kakarot_address_key =>
         match env.get_storage_var_address "ERC20_allowances" [starknet_addr, kakarot_address] with
         | .error e => .error e
         | .ok allowance_key =>
          .ok
            { kakarot_storage_entry := (evm_to_starknet_key, starknet_addr)
              fee_token_entries :=
                [(allowance_key, 2 ^ 128 - 1), ((allowance_key + 1) % STARK_PRIME, 2 ^ 128 - 1)]
              contract :=
                (starknet_addr,
                  { «class» := some proxy_class_hash
                    balance := some entry.2.balance
                    nonce := none
                    storage := some (account_storage0 ++ [(kakarot_address_key, kakarot_address)]) }) }

/-- `HiveGenesisConfig::try_into_genesis_json` (`hive/mod.rs`): parse the
coinbase, initialize the builder, load the config values, convert every
allocation entry (aborting the whole run on the first failure), then build the
base genesis and extend the kakarot contract storage, the fee-token storage and
the contract set with the collected contributions. -/
def try_into_genesis_json (env : GenesisEnv) (hive : HiveGenesisConfig) :
    Except GenesisError GenesisJson :=
  match from_byte_slice_be hive.coinbase with
  | .error e => .error e
  | .ok coinbase_address =>
   match env.with_kakarot coinbase_address with
   | .error e => .error e
   | .ok _ =>
    match env.cache_load "kakarot_address" with
    | .error e => .error e
    | .ok kakarot_address =>
     match env.proxy_class_hash with
     | .error e => .error e
     | .ok proxy_class_hash =>
      match env.eoa_class_hash with
      | .error e => .error e
      | .ok eoa_class_hash =>
       match env.contract_account_class_hash with
       | .error e => .error e
       | .ok contract_account_class_hash =>
        match collectResults
            (process_alloc_entry env kakarot_address proxy_class_hash eoa_class_hash
              contract_account_class_hash) hive.alloc with
        | .error e => .error e
        | .ok outs =>
         match env.build with
         | .error e => .error e
         | .ok genesis =>
          match assocGet genesis.contracts kakarot_address with
          | none => .error (.err "Kakarot contract not found")
          | some _ =>
            let additional_kakarot_storage := outs.map (fun o => o.kakarot_storage_entry)
            let fee_token_storage := (outs.map (fun o => o.fee_token_entries)).flatten
            let contracts := outs.map (fun o => o.contract)
            let contracts1 :=
              updateAssoc genesis.contracts kakarot_address
                (fun c => { c with storage := some (c.storage.getD [] ++ additional_kakarot_storage) })
            .ok
              { contracts := contracts1 ++ contracts
                fee_token :=
                  { storage := some (genesis.fee_token.storage.getD [] ++ fee_token_storage) } }

/-! ### Concrete fixtures (used by witnesses and counterexamples) -/

/-- A concrete configuration with a trivial address-hash capability. -/
def cfg0 : KakarotConfig :=
  { KAKAROT_ADDRESS := 3
    PROXY_ACCOUNT_CLASS_HASH := 4
    ETH_SEND_TRANSACTION := 5
    get_contract_address := fun salt classHash _ deployer => salt + classHash + deployer }

/-- A concrete legacy transaction body. -/
def txLegacyFixture : TxLegacy :=
  { chain_id := some 1, nonce := 3, gas_price := 7, gas_limit := 21000
    «to» := .create, value := 0, input := [] }

/-- A concrete signature with even parity. -/
def sig0 : Signature := { r := 1, s := 2, odd_y_parity := false }

/-- A concrete signature with odd parity. -/
def sig1 : Signature := { r := 5, s := 6, odd_y_parity := true }

/-- A 20-byte address whose last byte is `b`. -/
def addr20 (b : Nat) : List Nat := List.replicate 19 0 ++ [b]

/-- A concrete, always-succeeding genesis environment: deterministic synthetic
hashes, a classifier that marks accounts with code as Contract accounts, and a
base genesis already containing the kakarot contract at address 7. -/
def testEnv : GenesisEnv :=
  { with_kakarot := fun _ => .ok ()
    cache_load := fun _ => .ok 7
    proxy_class_hash := .ok 11
    eoa_class_hash := .ok 12
    contract_account_class_hash := .ok 13
    compute_starknet_address := fun evm => .ok (evm + 100)
    get_storage_var_address := fun name args =>
      .ok (name.length + 1000 * args.foldl (fun a b => a + b) 0)
    kakarot_account_new := fun _ code _ st =>
      .ok { account_type := if code.isEmpty then .eoa else .contract, storage := st }
    build :=
      .ok { contracts := [(7, { «class» := none, balance := none, nonce := none, storage := some [] })]
            fee_token := { storage := some [] } } }

/-- An environment whose account-model collaborator rejects its input
(a malformed storage key). -/
def badEnv : GenesisEnv :=
  { testEnv with kakarot_account_new := fun _ _ _ _ => .error (.err "unparsable storage key") }

/-- An externally-owned allocation entry. -/
def entry1 : List Nat × AccountInfo := (addr20 1, { balance := 5, code := none, storage := none })

/-- A contract-account allocation entry (nonempty code, one storage pair). -/
def entry2 : List Nat × AccountInfo :=
  (addr20 2, { balance := 9, code := some [254], storage := some [(1, 2)] })

/-- An entry whose balance needs all 256 bits. -/
def entry5 : List Nat × AccountInfo :=
  (addr20 3, { balance := 2 ^ 255 + 9, code := none, storage := none })

/-- A one-entry hive genesis. -/
def hive1 : HiveGenesisConfig := { coinbase := List.replicate 20 0, alloc := [entry1] }

/-- A one-entry hive genesis holding the 256-bit-balance entry. -/
def hive5 : HiveGenesisConfig := { coinbase := List.replicate 20 0, alloc := [entry5] }

/-- Placeholder used only to extract `.ok` payloads of concrete runs. -/
def dummyEntryOut : EntryOut :=
  { kakarot_storage_entry := (0, 0)
    fee_token_entries := []
    contract := (0, { «class» := none, balance := none, nonce := none, storage := none }) }

/-- The concrete entry contribution of `entry1` under `testEnv`. -/
def out1 : EntryOut := (process_alloc_entry testEnv 7 11 12 13 entry1).toOption.getD dummyEntryOut

/-- The concrete entry contribution of `entry2` under `testEnv`. -/
def out2 : EntryOut := (process_alloc_entry testEnv 7 11 12 13 entry2).toOption.getD dummyEntryOut

/-- The concrete materialized genesis of `hive1` under `testEnv`. -/
def g1 : GenesisJson :=
  (try_into_genesis_json testEnv hive1).toOption.getD { contracts := [], fee_token := { storage := none } }

/-! ### Helper lemmas -/

/-- If some element of the list fails, the whole `collect::<Result<...>>` fails. -/
theorem collectResults_mem_error {f : α → Except ε β} {l : List α} {x : α} {e : ε}
    (hx : x ∈ l) (hf : f x = .error e) : ∃ e2, collectResults f l = .error e2 := by
  induction l with
  | nil => cases hx
  | cons y ys ih =>
    cases hx with
    | head => exact ⟨e, by simp [collectResults, hf]⟩
    | tail _ hmem =>
      cases hfy : f y with
      | error e3 => exact ⟨e3, by simp [collectResults, hfy]⟩
      | ok b =>
        obtain ⟨e2, hrec⟩ := ih hmem
        exact ⟨e2, by simp [collectResults, hfy, hrec]⟩

/-- A successful `collect::<Result<...>>` contains the image of every element. -/
theorem collectResults_mem_ok {f : α → Except ε β} {l : List α} {bs : List β} {x : α} {b : β}
    (hl : collectResults f l = .ok bs) (hx : x ∈ l) (hf : f x = .ok b) : b ∈ bs := by
  induction l generalizing bs with
  | nil => cases hx
  | cons y ys ih =>
    cases hfy : f y with
    | error e => simp [collectResults, hfy] at hl
    | ok b1 =>
      cases hrest : collectResults f ys with
      | error e => simp [collectResults, hfy, hrest] at hl
      | ok bs1 =>
        simp only [collectResults, hfy, hrest] at hl
        cases hl
        cases hx with
        | head =>
          have : b = b1 := by rw [hf] at hfy; exact Except.ok.inj hfy
          exact this ▸ List.mem_cons_self _ _
        | tail _ hmem => exact List.mem_cons_of_mem _ (ih hrest hmem)

/-- Full characterization of a successful per-entry conversion: every fallible
step succeeded and the contribution is exactly the one the closure builds. -/
theorem process_alloc_entry_ok_elim {env : GenesisEnv} {kak pxh eoah cah : Nat}
    {entry : List Nat × AccountInfo} {out : EntryOut}
    (h : process_alloc_entry env kak pxh eoah cah entry = .ok out) :
    ∃ evm sa k1 acct implKey accSt0 kakKey akey,
      from_byte_slice_be entry.1 = .ok evm ∧
      env.compute_starknet_address evm = .ok sa ∧
      env.get_storage_var_address "evm_to_starknet_address" [evm] = .ok k1 ∧
      env.kakarot_account_new entry.1 (entry.2.code.getD []) 0 (entry.2.storage.getD []) = .ok acct ∧
      env.get_storage_var_address "_implementation" [] = .ok implKey ∧
      (match acct.account_type with
       | .contract => ∃ ownerKey, env.get_storage_var_address "Ownable_owner" [] = .ok ownerKey ∧
           accSt0 = acct.storage ++ [(implKey, cah), (ownerKey, kak)]
       | .eoa => accSt0 = acct.storage ++ [(implKey, eoah)]
       | .unknown => False) ∧
      env.get_storage_var_address "kakarot_address" [] = .ok kakKey ∧
      env.get_storage_var_address "ERC20_allowances" [sa, kak] = .ok akey ∧
      out = { kakarot_storage_entry := (k1, sa)
              fee_token_entries := [(akey, 2 ^ 128 - 1), ((akey + 1) % STARK_PRIME, 2 ^ 128 - 1)]
              contract := (sa, { «class» := some pxh, balance := some entry.2.balance, nonce := none,
                                 storage := some (accSt0 ++ [(kakKey, kak)]) }) } := by
  unfold process_alloc_entry at h
  cases h1 : from_byte_slice_be entry.1 with
  | error e => simp [h1] at h
  | ok evm =>
  simp only [h1] at h
  cases h2 : env.compute_starknet_address evm with
  | error e => simp [h2] at h
  | ok sa =>
  simp only [h2] at h
  cases h3 : env.get_storage_var_address "evm_to_starknet_address" [evm] with
  | error e => simp [h3] at h
  | ok k1 =>
  simp only [h3] at h
  cases h4 : env.kakarot_account_new entry.1 (entry.2.code.getD []) 0 (entry.2.storage.getD []) with
  | error e => simp [h4] at h
  | ok acct =>
  simp only [h4] at h
  cases h5 : env.get_storage_var_address "_implementation" [] with
  | error e => simp [h5] at h
  | ok implKey =>
  simp only [h5] at h
  cases h7 : env.get_storage_var_address "kakarot_address" [] with
  | error e =>
    simp only [h7] at h
    cases hat : acct.account_type with
    | contract =>
      simp only [hat] at h
      cases h6 : env.get_storage_var_address "Ownable_owner" [] with
      | error e2 => simp only [h6] at h; simp at h
      | ok ownerKey => simp only [h6] at h; simp at h
    | eoa => simp only [hat] at h; simp at h
    | unknown => simp only [hat] at h; simp at h
  | ok kakKey =>
  simp only [h7] at h
  cases h8 : env.get_storage_var_address "ERC20_allowances" [sa, kak] with
  | error e =>
    simp only [h8] at h
    cases hat : acct.account_type with
    | contract =>
      simp only [hat] at h
      cases h6 : env.get_storage_var_address "Ownable_owner" [] with
      | error e2 => simp only [h6] at h; simp at h
      | ok ownerKey => simp only [h6] at h; simp at h
    | eoa => simp only [hat] at h; simp at h
    | unknown => simp only [hat] at h; simp at h
  | ok akey =>
  simp only [h8] at h
  cases hat : acct.account_type with
  | contract =>
    simp only [hat] at h
    cases h6 : env.get_storage_var_address "Ownable_owner" [] with
    | error e2 => simp only [h6] at h; simp at h
    | ok ownerKey =>
      simp only [h6] at h
      simp only [Except.ok.injEq] at h
      refine ⟨evm, sa, k1, acct, implKey,
        acct.storage ++ [(implKey, cah), (ownerKey, kak)], kakKey, akey,
        rfl, h2, h3, rfl, rfl, ?_, rfl, h8, ?_⟩
      · rw [hat]; exact ⟨ownerKey, rfl, rfl⟩
      · exact h.symm
  | eoa =>
    simp only [hat] at h
    simp only [Except.ok.injEq] at h
    refine ⟨evm, sa, k1, acct, implKey, acct.storage ++ [(implKey, eoah)], kakKey, akey,
      rfl, h2, h3, rfl, rfl, ?_, rfl, h8, ?_⟩
    · rw [hat]
    · exact h.symm
  | unknown => simp only [hat] at h; simp at h

/-- Decomposition of a successful whole-genesis materialization: every
configuration step succeeded, all entries converted, and the resulting
fee-token storage is the base storage extended with all collected allowance
entries. -/
theorem try_into_genesis_json_ok_elim {env : GenesisEnv} {hive : HiveGenesisConfig}
    {g : GenesisJson} (h : try_into_genesis_json env hive = .ok g) :
    ∃ cb kak pxh eoah cah outs genesis,
      from_byte_slice_be hive.coinbase = .ok cb ∧
      env.with_kakarot cb = .ok () ∧
      env.cache_load "kakarot_address" = .ok kak ∧
      env.proxy_class_hash = .ok pxh ∧
      env.eoa_class_hash = .ok eoah ∧
      env.contract_account_class_hash = .ok cah ∧
      collectResults (process_alloc_entry env kak pxh eoah cah) hive.alloc = .ok outs ∧
      env.build = .ok genesis ∧
      g.fee_token.storage =
        some (genesis.fee_token.storage.getD [] ++
          (outs.map (fun o => o.fee_token_entries)).flatten) := by
  unfold try_into_genesis_json at h
  cases h1 : from_byte_slice_be hive.coinbase with
  | error e => simp [h1] at h
  | ok cb =>
  simp only [h1] at h
  cases h2 : env.with_kakarot cb with
  | error e => simp [h2] at h
  | ok u =>
  simp only [h2] at h
  cases h3 : env.cache_load "kakarot_address" with
  | error e => simp [h3] at h
  | ok kak =>
  simp only [h3] at h
  cases h4 : env.proxy_class_hash with
  | error e => simp [h4] at h
  | ok pxh =>
  simp only [h4] at h
  cases h5 : env.eoa_class_hash with
  | error e => simp [h5] at h
  | ok eoah =>
  simp only [h5] at h
  cases h6 : env.contract_account_class_hash with
  | error e => simp [h6] at h
  | ok cah =>
  simp only [h6] at h
  cases h7 : collectResults (process_alloc_entry env kak pxh eoah cah) hive.alloc with
  | error e => simp [h7] at h
  | ok outs =>
  simp only [h7] at h
  cases h8 : env.build with
  | error e => simp [h8] at h
  | ok genesis =>
  simp only [h8] at h
  cases h9 : assocGet genesis.contracts kak with
  | none => simp only [h9] at h; simp at h
  | some c =>
    simp only [h9] at h
    simp only [Except.ok.injEq] at h
    exact ⟨cb, kak, pxh, eoah, cah, outs, genesis, rfl, h2, rfl, rfl, rfl, rfl, h7, rfl,
      by rw [← h]⟩

/-! ### Claim theorems -/

/-- Claim C1 (amended): for every supported signed transaction the signature
sequence has exactly 5 field elements, in the fixed order
`[r_lo, r_hi, s_lo, s_hi, trailing]` with r and s split into 128-bit low/high
limbs; for a Legacy transaction the trailing element equals
`(recovery_indicator + chain_id*2 + 35) mod 2^64` (the u64 computation wraps),
and for every other variant it is the raw parity bit. -/
theorem C1_signature_wire_format (cfg : KakarotConfig) (tx : TransactionSigned)
    (chain_id : Nat) (signer : List Nat) (max_fee : Nat) :
    (to_starknet_transaction cfg tx chain_id signer max_fee).map (fun d => d.signature) =
      .ok (split_u256 tx.signature.r ++ split_u256 tx.signature.s ++
        [match tx.transaction with
         | .legacy _ =>
           ((if tx.signature.odd_y_parity then 1 else 0) + chain_id * 2 + 35) % 2 ^ 64
         | _ => (if tx.signature.odd_y_parity then 1 else 0)]) ∧
    (to_starknet_transaction cfg tx chain_id signer max_fee).map (fun d => d.signature.length) =
      .ok 5 := by
  obtain ⟨t, sig⟩ := tx
  cases t <;> exact ⟨rfl, rfl⟩

/-- Claim C1 (counterexample to the claim as stated): at `chain_id = 2^63` with
recovery indicator 0 the trailing element of a Legacy signature is the wrapped
value 35, not `0 + 2^63*2 + 35`. -/
theorem C1_counterexample :
    (to_starknet_transaction cfg0 { transaction := .legacy txLegacyFixture, signature := sig0 }
        (2 ^ 63) (addr20 1) 0).map (fun d => d.signature.get? 4) = .ok (some 35) ∧
    (35 : Nat) ≠ 0 + 2 ^ 63 * 2 + 35 :=
  ⟨rfl, by decide⟩

/-- Claim C2 (confirmed): the calldata is exactly
`[1, coordinator, selector, 0, L, L]` followed by the L bytes of the unsigned
encoding, each byte its own field element; total length `6 + L`. -/
theorem C2_calldata_wire_format (cfg : KakarotConfig) (tx : TransactionSigned)
    (chain_id : Nat) (signer : List Nat) (max_fee : Nat) :
    (to_starknet_transaction cfg tx chain_id signer max_fee).map (fun d => d.calldata) =
      .ok (1 :: cfg.KAKAROT_ADDRESS :: cfg.ETH_SEND_TRANSACTION :: 0 ::
        (encode_without_signature tx.transaction).length ::
        (encode_without_signature tx.transaction).length ::
        encode_without_signature tx.transaction) ∧
    (to_starknet_transaction cfg tx chain_id signer max_fee).map (fun d => d.calldata.length) =
      .ok (6 + (encode_without_signature tx.transaction).length) := by
  constructor
  · rfl
  · simp only [to_starknet_transaction, Except.map, List.length_cons]
    congr 1
    omega

/-- Claim C3 (counterexample to the claim as stated): at `chain_id = 2^63 + 1`
the computation `1 + chain_id*2 + 35` overflows u64, yet the translator does
NOT return a conversion error: it succeeds with the wrapped trailing value
38. -/
theorem C3_counterexample :
    2 ^ 64 ≤ 1 + (2 ^ 63 + 1) * 2 + 35 ∧
    (to_starknet_transaction cfg0 { transaction := .legacy txLegacyFixture, signature := sig1 }
        (2 ^ 63 + 1) (addr20 2) 0).map (fun d => d.signature.get? 4) = .ok (some 38) :=
  ⟨by decide, rfl⟩

/-- Claim C3 (amended): for every Legacy transaction and chain id for which
`recovery_indicator + chain_id*2 + 35` overflows u64, the translator still
returns success and the trailing signature element is the value silently
wrapped modulo 2^64 (no conversion error is ever surfaced). -/
theorem C3_overflow_wraps (cfg : KakarotConfig) (t : TxLegacy) (sig : Signature)
    (chain_id : Nat) (signer : List Nat) (max_fee : Nat)
    (h : 2 ^ 64 ≤ (if sig.odd_y_parity then 1 else 0) + chain_id * 2 + 35) :
    ∃ d, to_starknet_transaction cfg { transaction := .legacy t, signature := sig }
        chain_id signer max_fee = .ok d ∧
      d.signature.get? 4 =
        some (((if sig.odd_y_parity then 1 else 0) + chain_id * 2 + 35) % 2 ^ 64) ∧
      ((if sig.odd_y_parity then 1 else 0) + chain_id * 2 + 35) % 2 ^ 64 ≠
        (if sig.odd_y_parity then 1 else 0) + chain_id * 2 + 35 := by
  refine ⟨_, rfl, rfl, ?_⟩
  have hlt : ((if sig.odd_y_parity then 1 else 0) + chain_id * 2 + 35) % 2 ^ 64 < 2 ^ 64 :=
    Nat.mod_lt _ (by norm_num)
  omega

/-- Witness for C3_overflow_wraps at a concrete overflowing input. -/
theorem C3_overflow_wraps_witness :
    ∃ d, to_starknet_transaction cfg0 { transaction := .legacy txLegacyFixture, signature := sig1 }
        (2 ^ 63 + 1) (addr20 1) 9 = .ok d ∧
      d.signature.get? 4 =
        some (((if sig1.odd_y_parity then 1 else 0) + (2 ^ 63 + 1) * 2 + 35) % 2 ^ 64) ∧
      ((if sig1.odd_y_parity then 1 else 0) + (2 ^ 63 + 1) * 2 + 35) % 2 ^ 64 ≠
        (if sig1.odd_y_parity then 1 else 0) + (2 ^ 63 + 1) * 2 + 35 :=
  C3_overflow_wraps cfg0 txLegacyFixture sig1 (2 ^ 63 + 1) (addr20 1) 9 (by decide)

/-- Claim C10 (confirmed): the translator is total over its error channel —
every input maps to the success variant. -/
theorem C10_translator_total (cfg : KakarotConfig) (tx : TransactionSigned)
    (chain_id : Nat) (signer : List Nat) (max_fee : Nat) :
    ∃ d, to_starknet_transaction cfg tx chain_id signer max_fee = .ok d :=
  ⟨_, rfl⟩

/-- Claim C6 (counterexample to the claim as stated): a 1-byte call return —
shorter than 32 bytes — does NOT yield a ConversionError: `balance_of`
zero-extends it and returns the numeric result 1. -/
theorem C6_counterexample :
    ([1] : List Nat).length < 32 ∧
    balance_of (fun _ _ => .ok [1]) (addr20 9) (addr20 8) 0 = .ok 1 :=
  ⟨by decide, rfl⟩

/-- Claim C6 (amended): `balance_of` returns the typed
`UintConversionError` naming the U256 target exactly when the returned bytes
encode a value of more than 256 bits; every shorter return — including returns
of fewer than 32 bytes — is zero-extended and decoded successfully.  The
decode is total (never panics). -/
theorem C6_decode_error_iff (ret : List Nat) (erc20_address evm_address : List Nat)
    (block_id : Nat) :
    balance_of (fun _ _ => .ok ret) erc20_address evm_address block_id =
      if beVal ret < 2 ^ 256 then .ok (beVal ret)
      else .error (.uintConversionError "Failed to convert call return to U256") := by
  have hdef : balance_of (fun _ _ => .ok ret) erc20_address evm_address block_id =
      (match (if beVal ret < 2 ^ 256 then some (beVal ret) else none : Option Nat) with
       | none => Except.error (EthApiError.uintConversionError "Failed to convert call return to U256")
       | some balance => Except.ok balance) := rfl
  rw [hdef]
  by_cases hv : beVal ret < 2 ^ 256
  · rw [if_pos hv, if_pos hv]
  · rw [if_neg hv, if_neg hv]

/-- Claim C9 (counterexample to the claim as stated): with an empty
environment the required constants are missing, yet process initialization
(the `lazy_static` registration) succeeds; the configuration failure first
surfaces when a request forces the constants through address derivation. -/
theorem C9_counterexample :
    (∃ e, env_var_to_field_element (fun _ => none) "KAKAROT_ADDRESS" = .error e) ∧
    lazy_static_init (fun _ => none) = .ok () ∧
    (∃ e, starknet_address_lazy (fun _ => none) (fun s c _ d => s + c + d) (addr20 4) = .error e) :=
  ⟨⟨.missingEnvVar "KAKAROT_ADDRESS", rfl⟩, rfl, ⟨.missingEnvVar "PROXY_ACCOUNT_CLASS_HASH", rfl⟩⟩

/-- Claim C9 (amended): the `lazy_static` configuration block performs no
validation at process initialization — it always succeeds — and a missing or
unparsable required constant instead surfaces (as a panic) at the first
dereference during request handling, here the address derivation a request
needs. -/
theorem C9_lazy_config (env : String → Option String)
    (gca : Nat → Nat → List Nat → Nat → Nat) (address : List Nat) :
    lazy_static_init env = .ok () ∧
    ((∃ e, env_var_to_field_element env "PROXY_ACCOUNT_CLASS_HASH" = .error e) ∨
        (∃ e, env_var_to_field_element env "KAKAROT_ADDRESS" = .error e) →
      ∃ e2, starknet_address_lazy env gca address = .error e2) := by
  refine ⟨rfl, ?_⟩
  intro h
  unfold starknet_address_lazy
  cases h1 : env_var_to_field_element env "PROXY_ACCOUNT_CLASS_HASH" with
  | error e => exact ⟨e, rfl⟩
  | ok p =>
    cases h2 : env_var_to_field_element env "KAKAROT_ADDRESS" with
    | error e => exact ⟨e, rfl⟩
    | ok k =>
      rcases h with ⟨e, he⟩ | ⟨e, he⟩
      · rw [h1] at he; exact Except.noConfusion he
      · rw [h2] at he; exact Except.noConfusion he

/-- Witness for C9_lazy_config at the empty environment. -/
theorem C9_lazy_config_witness :
    lazy_static_init (fun _ => none) = .ok () ∧
    (∃ e2, starknet_address_lazy (fun _ => none) (fun s _ _ d => s + d) (addr20 5) = .error e2) :=
  ⟨(C9_lazy_config (fun _ => none) (fun s _ _ d => s + d) (addr20 5)).1,
    (C9_lazy_config (fun _ => none) (fun s _ _ d => s + d) (addr20 5)).2
      (Or.inl ⟨.missingEnvVar "PROXY_ACCOUNT_CLASS_HASH", rfl⟩)⟩

/-- Claim C4 (confirmed): if any allocation entry fails to convert (malformed
address or storage key — any per-entry failure), the whole genesis
materialization returns an error: no genesis state covering only the
well-formed entries is ever produced. -/
theorem C4_atomic_failure (env : GenesisEnv) (hive : HiveGenesisConfig)
    (kak pxh eoah cah : Nat) (entry : List Nat × AccountInfo) (e : GenesisError)
    (hkak : env.cache_load "kakarot_address" = .ok kak)
    (hpxh : env.proxy_class_hash = .ok pxh)
    (heoa : env.eoa_class_hash = .ok eoah)
    (hcah : env.contract_account_class_hash = .ok cah)
    (hmem : entry ∈ hive.alloc)
    (hfail : process_alloc_entry env kak pxh eoah cah entry = .error e) :
    ∃ e2, try_into_genesis_json env hive = .error e2 := by
  cases hres : try_into_genesis_json env hive with
  | error e2 => exact ⟨e2, rfl⟩
  | ok g =>
    exfalso
    obtain ⟨cb, kak2, pxh2, eoah2, cah2, outs, genesis, q1, q2, q3, q4, q5, q6, q7, q8, q9⟩ :=
      try_into_genesis_json_ok_elim hres
    rw [hkak] at q3; injection q3 with e3; subst e3
    rw [hpxh] at q4; injection q4 with e4; subst e4
    rw [heoa] at q5; injection q5 with e5; subst e5
    rw [hcah] at q6; injection q6 with e6; subst e6
    obtain ⟨e2, hcoll⟩ := collectResults_mem_error hmem hfail
    rw [hcoll] at q7
    exact Except.noConfusion q7

/-- Witness for C4_atomic_failure: a one-entry allocation whose account
conversion is rejected aborts the whole materialization. -/
theorem C4_atomic_failure_witness :
    ∃ e2, try_into_genesis_json badEnv hive1 = .error e2 :=
  C4_atomic_failure badEnv hive1 7 11 12 13 entry1 (.err "unparsable storage key")
    rfl rfl rfl rfl (List.Mem.head _) rfl

/-- Claim C5 (amended): for every successfully converted allocation entry the
materialized contract carries the 256-bit account balance whole, in the native
genesis balance field — not as a low/high limb pair (limb-splitting of storage
values happens inside the account-model collaborator before they reach this
component). -/
theorem C5_balance_placed_whole (env : GenesisEnv) (kak pxh eoah cah : Nat)
    (entry : List Nat × AccountInfo) (out : EntryOut)
    (h : process_alloc_entry env kak pxh eoah cah entry = .ok out) :
    out.contract.2.balance = some entry.2.balance := by
  obtain ⟨evm, sa, k1, acct, implKey, accSt0, kakKey, akey, -, -, -, -, -, -, -, -, hout⟩ :=
    process_alloc_entry_ok_elim h
  rw [hout]

/-- Witness for C5_balance_placed_whole at a concrete entry. -/
theorem C5_balance_placed_whole_witness :
    out1.contract.2.balance = some entry1.2.balance :=
  C5_balance_placed_whole testEnv 7 11 12 13 entry1 out1 rfl

/-- Claim C5 (counterexample to the claim as stated): an entry whose balance
needs all 256 bits materializes with that whole value in the single balance
field — a value that cannot even be one field element — and no limb of it
appears in the produced storage. -/
theorem C5_counterexample :
    (process_alloc_entry testEnv 7 11 12 13 entry5).map (fun o => o.contract.2) =
      .ok { «class» := some 11, balance := some (2 ^ 255 + 9), nonce := none,
            storage := some [(15, 12), (15, 7)] } ∧
    STARK_PRIME ≤ 2 ^ 255 + 9 ∧
    ((2 ^ 255 + 9) % 2 ^ 128) ∉ ([(15, 12), (15, 7)] : List (Nat × Nat)).map Prod.snd :=
  ⟨rfl, by decide, by decide⟩

/-- Claim C7 (confirmed): every materialized account has class = proxy class
hash; its storage is the collaborator-derived storage extended with the
implementation slot, the coordinator-address (`kakarot_address`) slot and —
exactly for Contract accounts — an `Ownable_owner` slot holding the
coordinator address (no owner slot is written for ExternallyOwned accounts). -/
theorem C7_fixed_slots (env : GenesisEnv) (kak pxh eoah cah : Nat)
    (entry : List Nat × AccountInfo) (out : EntryOut)
    (h : process_alloc_entry env kak pxh eoah cah entry = .ok out) :
    out.contract.2.«class» = some pxh ∧
    ∃ acct implKey kakKey,
      env.kakarot_account_new entry.1 (entry.2.code.getD []) 0 (entry.2.storage.getD []) = .ok acct ∧
      env.get_storage_var_address "_implementation" [] = .ok implKey ∧
      env.get_storage_var_address "kakarot_address" [] = .ok kakKey ∧
      (match acct.account_type with
       | .contract => ∃ ownerKey, env.get_storage_var_address "Ownable_owner" [] = .ok ownerKey ∧
           out.contract.2.storage =
             some (acct.storage ++ [(implKey, cah), (ownerKey, kak), (kakKey, kak)])
       | .eoa => out.contract.2.storage = some (acct.storage ++ [(implKey, eoah), (kakKey, kak)])
       | .unknown => False) := by
  obtain ⟨evm, sa, k1, acct, implKey, accSt0, kakKey, akey, h1, h2, h3, h4, h5, hmatch, h7, h8, hout⟩ :=
    process_alloc_entry_ok_elim h
  subst hout
  refine ⟨rfl, acct, implKey, kakKey, h4, h5, h7, ?_⟩
  cases hat : acct.account_type with
  | contract =>
    rw [hat] at hmatch
    obtain ⟨ownerKey, hok, heq⟩ := hmatch
    exact ⟨ownerKey, hok, by rw [heq]; simp [List.append_assoc]⟩
  | eoa =>
    rw [hat] at hmatch
    rw [hmatch]
    simp [List.append_assoc]
  | unknown =>
    rw [hat] at hmatch
    exact hmatch

/-- Witness for C7_fixed_slots at a concrete Contract-classified entry. -/
theorem C7_fixed_slots_witness :
    out2.contract.2.«class» = some 11 ∧
    ∃ acct implKey kakKey,
      testEnv.kakarot_account_new entry2.1 (entry2.2.code.getD []) 0 (entry2.2.storage.getD []) = .ok acct ∧
      testEnv.get_storage_var_address "_implementation" [] = .ok implKey ∧
      testEnv.get_storage_var_address "kakarot_address" [] = .ok kakKey ∧
      (match acct.account_type with
       | .contract => ∃ ownerKey, testEnv.get_storage_var_address "Ownable_owner" [] = .ok ownerKey ∧
           out2.contract.2.storage =
             some (acct.storage ++ [(implKey, 13), (ownerKey, 7), (kakKey, 7)])
       | .eoa => out2.contract.2.storage = some (acct.storage ++ [(implKey, 12), (kakKey, 7)])
       | .unknown => False) :=
  C7_fixed_slots testEnv 7 11 12 13 entry2 out2 rfl

/-- Claim C8 (confirmed): every allocation entry grants a maximal fee-token
allowance toward the coordinator: two adjacent limb slots — the
`ERC20_allowances(derived address, coordinator)` key and its field successor —
both hold `u128::MAX`, both end up in the final fee-token storage, and the two
limbs recombine to the maximum 256-bit value. -/
theorem C8_allowance (env : GenesisEnv) (hive : HiveGenesisConfig) (kak pxh eoah cah : Nat)
    (entry : List Nat × AccountInfo) (out : EntryOut) (g : GenesisJson)
    (hkak : env.cache_load "kakarot_address" = .ok kak)
    (hpxh : env.proxy_class_hash = .ok pxh)
    (heoa : env.eoa_class_hash = .ok eoah)
    (hcah : env.contract_account_class_hash = .ok cah)
    (hg : try_into_genesis_json env hive = .ok g)
    (hmem : entry ∈ hive.alloc)
    (hout : process_alloc_entry env kak pxh eoah cah entry = .ok out) :
    ∃ evm sa akey,
      from_byte_slice_be entry.1 = .ok evm ∧
      env.compute_starknet_address evm = .ok sa ∧
      env.get_storage_var_address "ERC20_allowances" [sa, kak] = .ok akey ∧
      out.fee_token_entries = [(akey, 2 ^ 128 - 1), ((akey + 1) % STARK_PRIME, 2 ^ 128 - 1)] ∧
      (akey, 2 ^ 128 - 1) ∈ g.fee_token.storage.getD [] ∧
      ((akey + 1) % STARK_PRIME, 2 ^ 128 - 1) ∈ g.fee_token.storage.getD [] ∧
      combine_u256 (2 ^ 128 - 1) (2 ^ 128 - 1) = 2 ^ 256 - 1 := by
  obtain ⟨cb, kak2, pxh2, eoah2, cah2, outs, genesis, q1, q2, q3, q4, q5, q6, q7, q8, q9⟩ :=
    try_into_genesis_json_ok_elim hg
  rw [hkak] at q3; rw [hpxh] at q4; rw [heoa] at q5; rw [hcah] at q6
  injection q3 with e3; subst e3
  injection q4 with e4; subst e4
  injection q5 with e5; subst e5
  injection q6 with e6; subst e6
  have houtmem : out ∈ outs := collectResults_mem_ok q7 hmem hout
  obtain ⟨evm, sa, k1, acct, implKey, accSt0, kakKey, akey, p1, p2, p3, p4, p5, pmatch, p7, p8, pout⟩ :=
    process_alloc_entry_ok_elim hout
  have hfee : out.fee_token_entries =
      [(akey, 2 ^ 128 - 1), ((akey + 1) % STARK_PRIME, 2 ^ 128 - 1)] := by rw [pout]
  have hsub : ∀ x ∈ out.fee_token_entries, x ∈ g.fee_token.storage.getD [] := by
    intro x hx
    rw [q9]
    simp only [Option.getD_some]
    refine List.mem_append_right _ ?_
    exact List.mem_flatten.mpr ⟨out.fee_token_entries, List.mem_map_of_mem _ houtmem, hx⟩
  refine ⟨evm, sa, akey, p1, p2, p8, hfee, ?_, ?_, by decide⟩
  · exact hsub _ (by rw [hfee]; exact List.mem_cons_self _ _)
  · exact hsub _ (by rw [hfee]; exact List.mem_cons_of_mem _ (List.mem_cons_self _ _))

/-- Witness for C8_allowance at a concrete one-entry allocation. -/
theorem C8_allowance_witness :
    ∃ evm sa akey,
      from_byte_slice_be entry1.1 = .ok evm ∧
      testEnv.compute_starknet_address evm = .ok sa ∧
      testEnv.get_storage_var_address "ERC20_allowances" [sa, 7] = .ok akey ∧
      out1.fee_token_entries = [(akey, 2 ^ 128 - 1), ((akey + 1) % STARK_PRIME, 2 ^ 128 - 1)] ∧
      (akey, 2 ^ 128 - 1) ∈ g1.fee_token.storage.getD [] ∧
      ((akey + 1) % STARK_PRIME, 2 ^ 128 - 1) ∈ g1.fee_token.storage.getD [] ∧
      combine_u256 (2 ^ 128 - 1) (2 ^ 128 - 1) = 2 ^ 256 - 1 :=
  C8_allowance testEnv hive1 7 11 12 13 entry1 out1 g1 rfl rfl rfl rfl rfl
    (List.Mem.head _) rfl

end KakarotRpc
